import Mathlib

/-!
Shallow embedding of the AI Review Orchestration & Scoring Engine of the
terraform-AI-Reviewer-dashboard repository, and proofs about it.

Sources embedded:
- src/backend/lambda/risk_scoring.py   (RiskScoringAlgorithm, ConfidenceScoringAlgorithm)
- src/backend/lambda/models.py         (typed aggregates)
- src/backend/lambda/bedrock_service.py (invocation pipeline, schema validation,
  result builder, fallback result)
- src/backend/lambda/dynamodb_client.py (versioned store adapter)

Numeric convention: Python floats are modelled as exact rationals (ℚ); Python
ints as ℤ where relevant.  `Decimal` values are modelled by the rational they
denote (Python's `float(Decimal(str(x))) == x` round-trip is exact at the
float level, which is what the carried rational represents).
-/

namespace TfReviewer

/-- Model of a Python value as it appears in parsed JSON payloads, pydantic
`.dict()` renderings and DynamoDB items.  `bool` is kept distinct from `int`
(Python `isinstance` checks that treat `bool` as an `int` are modelled
explicitly where they occur). -/
inductive PyVal where
  | none : PyVal
  | bool (b : Bool) : PyVal
  | int (n : Int) : PyVal
  | float (q : Rat) : PyVal
  | str (s : String) : PyVal
  | decimal (q : Rat) : PyVal
  | list (xs : List PyVal) : PyVal
  | dict (fields : List (String × PyVal)) : PyVal

/-- Key lookup in a Python dict (first binding wins, as in a dict there is at
most one binding per key). -/
def pyLookup (fields : List (String × PyVal)) (k : String) : Option PyVal :=
  match fields with
  | [] => Option.none
  | (k₀, v) :: rest => if k₀ = k then Option.some v else pyLookup rest k

/-- Python `k in d` membership test for a Python dict. -/
def pyHasKey (fields : List (String × PyVal)) (k : String) : Bool :=
  (pyLookup fields k).isSome

/-!
## Store serialization (src/backend/lambda/dynamodb_client.py, `_serialize`)

`_serialize` maps dicts and lists recursively, converts `float` to
`Decimal(str(x))` (value-preserving at the float level), passes `bool`,
`int` and `str` through, and sends every other object — in particular
`None` — through `str(obj)`; `str(None)` is the string `"None"`.
-/

mutual

def serializeVal : PyVal → PyVal
  | .dict fs => .dict (serializeDict fs)
  | .list xs => .list (serializeList xs)
  | .float q => .decimal q
  | .bool b => .bool b
  | .int n => .int n
  | .str s => .str s
  | .none => .str "None"
  | .decimal q => .str (toString q)

def serializeList : List PyVal → List PyVal
  | [] => []
  | v :: vs => serializeVal v :: serializeList vs

def serializeDict : List (String × PyVal) → List (String × PyVal)
  | [] => []
  | (k, v) :: fs => (k, serializeVal v) :: serializeDict fs

end

/-!
`_deserialize` maps dicts and lists recursively, converts `Decimal` back to
`float`, and leaves everything else unchanged.
-/

mutual

def deserializeVal : PyVal → PyVal
  | .dict fs => .dict (deserializeDict fs)
  | .list xs => .list (deserializeList xs)
  | .decimal q => .float q
  | .none => .none
  | .bool b => .bool b
  | .int n => .int n
  | .float q => .float q
  | .str s => .str s

def deserializeList : List PyVal → List PyVal
  | [] => []
  | v :: vs => deserializeVal v :: deserializeList vs

def deserializeDict : List (String × PyVal) → List (String × PyVal)
  | [] => []
  | (k, v) :: fs => (k, deserializeVal v) :: deserializeDict fs

end

/-!
Values on which `_serialize` followed by `_deserialize` can be the identity:
everything except `None` (which becomes the string `"None"`) and `Decimal`
(which `_serialize` sends through `str`).
-/

mutual

def serializableVal : PyVal → Bool
  | .none => false
  | .decimal _ => false
  | .bool _ => true
  | .int _ => true
  | .float _ => true
  | .str _ => true
  | .list xs => serializableList xs
  | .dict fs => serializableDict fs

def serializableList : List PyVal → Bool
  | [] => true
  | v :: vs => serializableVal v && serializableList vs

def serializableDict : List (String × PyVal) → Bool
  | [] => true
  | (_, v) :: fs => serializableVal v && serializableDict fs

end

/-!
## Typed aggregates (src/backend/lambda/models.py)
-/

inductive RiskLevel where
  | low
  | medium
  | high
deriving DecidableEq

/-- String value of the `RiskLevel(str, Enum)` member, as rendered on the
wire. -/
def RiskLevel.toStr : RiskLevel → String
  | .low => "low"
  | .medium => "medium"
  | .high => "high"

structure Finding where
  finding_id : String
  category : String
  severity : RiskLevel
  title : String
  description : String
  line_number : Option Int := Option.none
  file_path : Option String := Option.none
  recommendation : String
  estimated_cost_impact : Option Rat := Option.none
  confidence_score : Rat
deriving DecidableEq

structure FixSuggestion where
  fix_id : String
  finding_id : String
  original_code : String
  suggested_code : String
  explanation : String
  effectiveness_score : Option Rat := Option.none
deriving DecidableEq

structure SecurityAnalysis where
  total_findings : Int
  high_severity : Int
  medium_severity : Int
  low_severity : Int
  findings : List Finding
deriving DecidableEq

structure CostAnalysis where
  estimated_monthly_cost : Rat
  estimated_annual_cost : Rat
  cost_optimizations : List Finding
  resource_count : Int
deriving DecidableEq

structure ReliabilityAnalysis where
  reliability_score : Rat
  single_points_of_failure : List Finding
  recommendations : List String
deriving DecidableEq

structure AIReviewResult where
  review_id : String
  security_analysis : SecurityAnalysis
  cost_analysis : CostAnalysis
  reliability_analysis : ReliabilityAnalysis
  overall_risk_score : Rat
  fix_suggestions : List FixSuggestion
  review_metadata : List (String × PyVal)

/-!
## Scoring Engine (src/backend/lambda/risk_scoring.py)

`RiskScoringAlgorithm`: SEVERITY_WEIGHTS = high 1.0, medium 0.5, low 0.2;
CATEGORY_WEIGHTS = security 0.50, cost 0.25, reliability 0.25.
-/

def clamp01 (x : Rat) : Rat := min 1 (max 0 x)

/-- Embeds `RiskScoringAlgorithm._calculate_security_score`.  Returns 0.0 when
`total_findings == 0`; otherwise normalizes the severity-weighted sum by 10,
caps at 1, and multiplies by 1.5 (re-capped at 1) when there is at least one
high-severity finding. -/
def calculate_security_score (s : SecurityAnalysis) : Rat :=
  if s.total_findings = 0 then 0
  else
    let weighted_score : Rat :=
      (s.high_severity : Rat) * 1 + (s.medium_severity : Rat) * (1/2) +
        (s.low_severity : Rat) * (1/5)
    let normalized := min 1 (weighted_score / 10)
    if s.high_severity > 0 then min 1 (normalized * (3/2)) else normalized

/-- Embeds `RiskScoringAlgorithm._calculate_cost_score`. -/
def calculate_cost_score (c : CostAnalysis) : Rat :=
  let cost_base := min 1 (c.estimated_monthly_cost / 10000)
  let optimization_score := min (1/2) ((c.cost_optimizations.length : Rat) * (1/10))
  min 1 (cost_base + optimization_score)

/-- Embeds `RiskScoringAlgorithm._calculate_reliability_score`. -/
def calculate_reliability_score (r : ReliabilityAnalysis) : Rat :=
  let base_risk := 1 - r.reliability_score
  let spof_adjustment := min (3/10) ((r.single_points_of_failure.length : Rat) * (1/10))
  min 1 (base_risk + spof_adjustment)

/-- Embeds `RiskScoringAlgorithm.calculate_overall_risk`: weighted combination of the
three category scores, clamped to [0,1] via `min(1.0, max(0.0, …))`. -/
def calculate_overall_risk (s : SecurityAnalysis) (c : CostAnalysis)
    (r : ReliabilityAnalysis) : Rat :=
  let overall_risk :=
    calculate_security_score s * (1/2) + calculate_cost_score c * (1/4) +
      calculate_reliability_score r * (1/4)
  min 1 (max 0 overall_risk)

/-- Embeds `RiskScoringAlgorithm.get_risk_level`. -/
def get_risk_level (risk_score : Rat) : String :=
  if risk_score ≥ 7/10 then "high"
  else if risk_score ≥ 2/5 then "medium"
  else "low"

/-- ASCII lowercasing of a string (`str.lower()` on the identifiers that occur
here). -/
def strLower (s : String) : String := String.mk (s.data.map Char.toLower)

/-- Embeds the `ConfidenceScoringAlgorithm.MODEL_CONFIDENCE_BASE` lookup with the
`default` entry as fallback, applied to `model_used.lower()`. -/
def modelConfidenceBase (model_used : String) : Rat :=
  let n := strLower model_used
  if n = "claude-3-5-sonnet" then 95/100
  else if n = "claude-3-opus" then 98/100
  else if n = "llama3-70b" then 85/100
  else 80/100

/-- Embeds `ConfidenceScoringAlgorithm.calculate_finding_confidence`: model base
confidence, plus specificity bonus (0.03 for a line number, 0.02 for a file
path), plus severity adjustment (high 0, medium −0.02, low −0.05), clamped
to [0,1]. -/
def calculate_finding_confidence (finding : Finding) (model_used : String)
    (has_line_number : Bool) (has_file_path : Bool) : Rat :=
  let base_confidence := modelConfidenceBase model_used
  let specificity_bonus : Rat :=
    (if has_line_number then (3/100 : Rat) else 0) +
      (if has_file_path then (2/100 : Rat) else 0)
  let severity_adjustment : Rat :=
    match finding.severity with
    | .high => 0
    | .medium => -(2/100)
    | .low => -(5/100)
  min 1 (max 0 (base_confidence + specificity_bonus + severity_adjustment))

/-- The spec's §4.5 security-score formula, written from the spec's words for
comparison with `calculate_security_score`:
`clamp01(min(1, (high*1.0 + medium*0.5 + low*0.2) / 10))`, multiplied by 1.5
and re-clamped when `high > 0`.  The spec formula has no `total_findings`
gate. -/
def specSecurityScoreFormula (s : SecurityAnalysis) : Rat :=
  let base := clamp01 (min 1 (((s.high_severity : Rat) * 1 +
    (s.medium_severity : Rat) * (1/2) + (s.low_severity : Rat) * (1/5)) / 10))
  if s.high_severity > 0 then clamp01 (base * (3/2)) else base

/-!
## Invocation pipeline (src/backend/lambda/bedrock_service.py)
-/

/-- One entry of `BedrockService.MODELS`. -/
structure ModelConfig where
  id : String
  name : String
  max_tokens : Int
  temperature : Rat
  use_case : String

/-- Embeds `BedrockService.MODELS`: the ordered backend list, best to fallback. -/
def MODELS : List ModelConfig :=
  [{ id := "anthropic.claude-3-5-sonnet-20241022-v2:0", name := "Claude 3.5 Sonnet",
     max_tokens := 4096, temperature := 1/10, use_case := "primary" },
   { id := "anthropic.claude-3-opus-20240229-v1:0", name := "Claude 3 Opus",
     max_tokens := 4096, temperature := 1/10, use_case := "fallback_high_quality" },
   { id := "meta.llama3-70b-instruct-v1:0", name := "Llama 3 70B",
     max_tokens := 2048, temperature := 1/10, use_case := "fallback_cost_effective" }]

/-- A Python exception as classified by `_invoke_model`'s handlers:
`botocore` `ClientError` (carrying its error code), `ValueError` (raised for
an unsupported model id), or any other exception (e.g. a timeout). -/
inductive PyExn where
  | clientError (code : String)
  | valueError (msg : String)
  | otherError
deriving DecidableEq

/-- Result of one raw network call to the Bedrock runtime (the external
boundary of `_invoke_claude` / `_invoke_llama`): either the model's text or a
raised exception. -/
inductive NetOutcome where
  | ok (text : String)
  | raise (e : PyExn)

/-- Tests whether `pat` is a prefix of `s` (character lists). -/
def isPref : List Char → List Char → Bool
  | [], _ => true
  | _ :: _, [] => false
  | p :: ps, c :: cs => p == c && isPref ps cs

/-- Substring containment on character lists. -/
def hasSubList : List Char → List Char → Bool
  | [], pat => pat.isEmpty
  | s@(_ :: rest), pat => isPref pat s || hasSubList rest pat

/-- Python's `pat in s` substring test. -/
def strContains (s pat : String) : Bool := hasSubList s.data pat.data

/-- The body of `_invoke_model`'s `try` block for a given attempt: dispatch on
the model id — `'claude' in id.lower()` calls `_invoke_claude`, `'llama'`
calls `_invoke_llama` (both hit the network, modelled by `net`), anything
else raises `ValueError("Unsupported model: …")`. -/
def dispatchModel (m : ModelConfig) (net : Nat → NetOutcome) (attempt : Nat) :
    NetOutcome :=
  if strContains (strLower m.id) "claude" then net attempt
  else if strContains (strLower m.id) "llama" then net attempt
  else .raise (.valueError ("Unsupported model: " ++ m.id))

/-- The model id is dispatched to an invocation routine: it names a Claude
or a Llama model. -/
def supportedB (m : ModelConfig) : Bool :=
  strContains (strLower m.id) "claude" || strContains (strLower m.id) "llama"

/-- Which exceptions `_invoke_model` retries when attempts remain: a
`ClientError` is retried only when its code is `ThrottlingException`
(non-throttling `ClientError`s are re-raised at once); every other exception
— including the unsupported-model `ValueError` — falls into the generic
`except Exception` handler and is retried. -/
def retriesOn : PyExn → Bool
  | .clientError code => code == "ThrottlingException"
  | .valueError _ => true
  | .otherError => true

/-- The retry loop of `_invoke_model` from attempt index `attempt` with
`rest` further attempts allowed (`max_retries = 3`, `backoff = 1`).  Returns
the final outcome together with the list of sleep durations performed
(`backoff * 2 ** attempt` seconds before each retry). -/
def invokeGo (m : ModelConfig) (net : Nat → NetOutcome) :
    Nat → Nat → Except PyExn String × List Rat
  | attempt, rest =>
    match dispatchModel m net attempt with
    | .ok t => (.ok t, [])
    | .raise e =>
      match rest with
      | 0 => (.error e, [])
      | r + 1 =>
        if retriesOn e then
          let next := invokeGo m net (attempt + 1) r
          (next.1, ((2 : Rat) ^ attempt) :: next.2)
        else (.error e, [])

/-- Embeds `BedrockService._invoke_model`: up to 3 attempts starting at attempt 0. -/
def invoke_model (m : ModelConfig) (net : Nat → NetOutcome) :
    Except PyExn String × List Rat :=
  invokeGo m net 0 2

/-!
## Response validation (src/backend/lambda/bedrock_service.py)
-/

/-- Ways `_validate_pr_review_schema` can fail.  `nonDictAnalysis` stands for
the inevitable `TypeError`/`AssertionError` raised when one of the three
analysis values is not a dict: membership tests on non-containers raise
`TypeError`, and membership on a list or string is followed either by a
failed assert or by indexing with a string key, which raises `TypeError`. -/
inductive SchemaErr where
  | missingKey (k : String)
  | assertFailed
  | typeError
  | nonDictAnalysis
  | nonDictTopLevel
deriving DecidableEq

/-- The `for key in required_keys` loop raising
`ValueError("Missing required key: …")`. -/
def requireKeys (fields : List (String × PyVal)) : List String → Except SchemaErr Unit
  | [] => .ok ()
  | k :: rest =>
    if pyHasKey fields k then requireKeys fields rest else .error (.missingKey k)

/-- Numeric view of a value for Python comparisons `0.0 <= v <= 1.0`
(`bool` participates as 0/1; anything else raises `TypeError`). -/
def asNum : PyVal → Option Rat
  | .int n => Option.some (n : Rat)
  | .float q => Option.some q
  | .bool b => Option.some (if b then 1 else 0)
  | _ => Option.none

/-- Python `isinstance(v, (int, float))`: `bool` is a subclass of `int` and counts. -/
def isIntFloat : PyVal → Bool
  | .int _ => true
  | .float _ => true
  | .bool _ => true
  | _ => false

/-- Python `isinstance(v, list)`. -/
def isListVal : PyVal → Bool
  | .list _ => true
  | _ => false

/-- The `# Validate security_analysis` block:
`assert 'total_findings' in sec` and
`assert 'findings' in sec and isinstance(sec['findings'], list)`. -/
def checkSecurityBlock (fields : List (String × PyVal)) : Except SchemaErr Unit :=
  match pyLookup fields "security_analysis" with
  | Option.some (.dict sec) =>
    if pyHasKey sec "total_findings" then
      if pyHasKey sec "findings" && isListVal ((pyLookup sec "findings").getD .none) then
        Except.ok ()
      else .error .assertFailed
    else .error .assertFailed
  | _ => .error .nonDictAnalysis

/-- The `# Validate cost_analysis` block:
`assert 'estimated_monthly_cost' in cost` and
`assert isinstance(cost['estimated_monthly_cost'], (int, float))`. -/
def checkCostBlock (fields : List (String × PyVal)) : Except SchemaErr Unit :=
  match pyLookup fields "cost_analysis" with
  | Option.some (.dict cost) =>
    if pyHasKey cost "estimated_monthly_cost" then
      if isIntFloat ((pyLookup cost "estimated_monthly_cost").getD .none) then
        Except.ok ()
      else .error .assertFailed
    else .error .assertFailed
  | _ => .error .nonDictAnalysis

/-- The `# Validate reliability_analysis` block:
`assert 'reliability_score' in rel` and
`assert 0.0 <= rel['reliability_score'] <= 1.0` (a non-numeric value makes
the comparison raise `TypeError`). -/
def checkReliabilityBlock (fields : List (String × PyVal)) : Except SchemaErr Unit :=
  match pyLookup fields "reliability_analysis" with
  | Option.some (.dict rel) =>
    if pyHasKey rel "reliability_score" then
      match asNum ((pyLookup rel "reliability_score").getD .none) with
      | Option.some q => if 0 ≤ q ∧ q ≤ 1 then .ok () else .error .assertFailed
      | Option.none => .error .typeError
    else .error .assertFailed
  | _ => .error .nonDictAnalysis

/-- The `# Validate overall_risk_score` block:
`assert 0.0 <= data['overall_risk_score'] <= 1.0`. -/
def checkOverallRisk (fields : List (String × PyVal)) : Except SchemaErr Unit :=
  match asNum ((pyLookup fields "overall_risk_score").getD .none) with
  | Option.some q => if 0 ≤ q ∧ q ≤ 1 then .ok () else .error .assertFailed
  | Option.none => .error .typeError

/-- Embeds `BedrockService._validate_pr_review_schema`: requires the six top-level
keys, then runs the four assertion blocks in source order.  (It never looks
at `cost_optimizations`.) -/
def validate_pr_review_schema (data : PyVal) : Except SchemaErr Unit :=
  match data with
  | .dict fields => do
    requireKeys fields
      ["security_analysis", "cost_analysis", "reliability_analysis",
       "overall_risk_score", "fix_suggestions", "review_metadata"]
    checkSecurityBlock fields
    checkCostBlock fields
    checkReliabilityBlock fields
    checkOverallRisk fields
  | _ => .error .nonDictTopLevel

/-- Opening brace character, written by code point to keep string literals
brace-free. -/
def braceOpen : Char := Char.ofNat 123

/-- Closing brace character. -/
def braceClose : Char := Char.ofNat 125

/-- The extraction step of `_parse_and_validate_json`: a greedy DOTALL search
for a brace-delimited substring.  The leftmost match with a greedy `.*` runs
from the first opening brace to the last closing brace after it; when there
is no such pair the whole text is handed to the JSON parser unchanged. -/
def extractJsonText (text : String) : String :=
  let afterBrace := text.data.dropWhile (fun c => c ≠ braceOpen)
  let upToClose := (afterBrace.reverse.dropWhile (fun c => c ≠ braceClose)).reverse
  if upToClose.isEmpty then text else String.mk upToClose

/-- A failure inside one backend's try-block of `review_terraform`. -/
inductive BuildErr where
  | unboundLocalReviewMetadata
  | validationError
  | attributeError
  | typeError
deriving DecidableEq

/-- Failure of one backend in the pipeline: invocation error, JSON parse
error, schema-validation error, or result-builder error. -/
inductive PipelineErr where
  | invoke (e : PyExn)
  | parseError
  | schema (e : SchemaErr)
  | build (e : BuildErr)

/-- Embeds `BedrockService._parse_and_validate_json` for the `pr_review` task type:
extract the brace-delimited substring, parse it (the standard-library
`json.loads` is the parameter `loads`; `Option.none` models
`JSONDecodeError`, re-raised as `ValueError`), then run the `pr_review`
schema validation. -/
def parse_and_validate_json (loads : String → Option PyVal) (text : String) :
    Except PipelineErr PyVal :=
  match loads (extractJsonText text) with
  | Option.none => .error .parseError
  | Option.some parsed =>
    match validate_pr_review_schema parsed with
    | .ok () => .ok parsed
    | .error e => .error (.schema e)

/-!
## Result builder (src/backend/lambda/bedrock_service.py, `_build_review_result`)
-/

/-- Parses `"high" | "medium" | "low"` into the `RiskLevel` enum. -/
def parseRiskLevel : String → Option RiskLevel
  | "high" => Option.some .high
  | "medium" => Option.some .medium
  | "low" => Option.some .low
  | _ => Option.none

/-- A required pydantic `str` field. -/
def strField (v : Option PyVal) : Except BuildErr String :=
  match v with
  | Option.some (.str s) => .ok s
  | _ => .error .validationError

/-- An optional pydantic `int` field (absent and JSON `null` both give
`None`). -/
def optIntField (v : Option PyVal) : Except BuildErr (Option Int) :=
  match v with
  | Option.none => .ok Option.none
  | Option.some .none => .ok Option.none
  | Option.some (.int n) => .ok (Option.some n)
  | _ => .error .validationError

/-- An optional pydantic `str` field. -/
def optStrField (v : Option PyVal) : Except BuildErr (Option String) :=
  match v with
  | Option.none => .ok Option.none
  | Option.some .none => .ok Option.none
  | Option.some (.str s) => .ok (Option.some s)
  | _ => .error .validationError

/-- An optional pydantic `float` field (ints coerce to floats). -/
def optRatField (v : Option PyVal) : Except BuildErr (Option Rat) :=
  match v with
  | Option.none => .ok Option.none
  | Option.some .none => .ok Option.none
  | Option.some (.float q) => .ok (Option.some q)
  | Option.some (.int n) => .ok (Option.some (n : Rat))
  | _ => .error .validationError

/-- Embeds `Finding(**f)`: pydantic construction of a `Finding` from a parsed JSON
object; a wrong shape raises a `ValidationError` (and a non-dict argument a
`TypeError`), both of which `review_terraform` treats as backend failure.
`confidence_score` carries the `ge=0.0, le=1.0` bounds from models.py. -/
def buildFinding (v : PyVal) : Except BuildErr Finding :=
  match v with
  | .dict f => do
    let fid ← strField (pyLookup f "finding_id")
    let category ← strField (pyLookup f "category")
    let severity ←
      (match pyLookup f "severity" with
       | Option.some (.str s) =>
         match parseRiskLevel s with
         | Option.some lvl => Except.ok lvl
         | Option.none => Except.error BuildErr.validationError
       | _ => Except.error BuildErr.validationError)
    let title ← strField (pyLookup f "title")
    let description ← strField (pyLookup f "description")
    let line_number ← optIntField (pyLookup f "line_number")
    let file_path ← optStrField (pyLookup f "file_path")
    let recommendation ← strField (pyLookup f "recommendation")
    let cost_impact ← optRatField (pyLookup f "estimated_cost_impact")
    let confidence ←
      (match asNum ((pyLookup f "confidence_score").getD .none) with
       | Option.some q =>
         if 0 ≤ q ∧ q ≤ 1 then Except.ok q else Except.error BuildErr.validationError
       | Option.none => Except.error BuildErr.validationError)
    Except.ok { finding_id := fid, category := category, severity := severity,
                title := title, description := description,
                line_number := line_number, file_path := file_path,
                recommendation := recommendation,
                estimated_cost_impact := cost_impact,
                confidence_score := confidence }
  | _ => .error .validationError

/-- Python `d.get(key, default)` where a non-dict receiver raises
`AttributeError`. -/
def asDictE (v : PyVal) : Except BuildErr (List (String × PyVal)) :=
  match v with
  | .dict f => .ok f
  | _ => .error .attributeError

/-- A pydantic `int` field fed from `d.get(key, default)`. -/
def intField (v : Option PyVal) (dflt : Int) : Except BuildErr Int :=
  match v with
  | Option.none => .ok dflt
  | Option.some (.int n) => .ok n
  | Option.some (.bool b) => .ok (if b then 1 else 0)
  | _ => .error .validationError

/-- A pydantic `float` field fed from `d.get(key, default)`. -/
def ratField (v : Option PyVal) (dflt : Rat) : Except BuildErr Rat :=
  match v with
  | Option.none => .ok dflt
  | Option.some (.float q) => .ok q
  | Option.some (.int n) => .ok (n : Rat)
  | Option.some (.bool b) => .ok (if b then 1 else 0)
  | _ => .error .validationError

/-- Embeds `[Finding(**f) for f in d.get(key, [])]`: absent gives the empty list, a
non-list raises when iterated with `**`-unpacking. -/
def findingsField (v : Option PyVal) : Except BuildErr (List Finding) :=
  match v with
  | Option.none => .ok []
  | Option.some (.list xs) => xs.mapM buildFinding
  | _ => .error .typeError

/-- A pydantic `List[str]` field fed from `d.get(key, [])`. -/
def strListField (v : Option PyVal) : Except BuildErr (List String) :=
  match v with
  | Option.none => .ok []
  | Option.some (.list xs) => xs.mapM (fun x => strField (Option.some x))
  | _ => .error .validationError

/-- Embeds `BedrockService._build_review_result`: builds the three category
aggregates and the overall risk score, then executes
`model_used = review_metadata.get('model_used', 'claude-3-5-sonnet')`.
`review_metadata` is a local variable of the function whose only assignment
comes later, so Python raises `UnboundLocalError` on that line for every
input; the confidence-score recomputation, the fix-suggestion construction,
the metadata assembly and the final `return AIReviewResult(…)` of the source
are unreachable code. -/
def build_review_result (parsed_data : PyVal) (_terraform_code : String) :
    Except BuildErr AIReviewResult :=
  match parsed_data with
  | .dict pd => do
    let security_data ← asDictE ((pyLookup pd "security_analysis").getD (.dict []))
    let total_findings ← intField (pyLookup security_data "total_findings") 0
    let high ← intField (pyLookup security_data "high_severity") 0
    let med ← intField (pyLookup security_data "medium_severity") 0
    let low ← intField (pyLookup security_data "low_severity") 0
    let sec_findings ← findingsField (pyLookup security_data "findings")
    let security_analysis : SecurityAnalysis :=
      { total_findings := total_findings, high_severity := high,
        medium_severity := med, low_severity := low, findings := sec_findings }
    let cost_data ← asDictE ((pyLookup pd "cost_analysis").getD (.dict []))
    let monthly ← ratField (pyLookup cost_data "estimated_monthly_cost") 0
    let annual ← ratField (pyLookup cost_data "estimated_annual_cost") 0
    let resource_count ← intField (pyLookup cost_data "resource_count") 0
    let cost_opts ← findingsField (pyLookup cost_data "cost_optimizations")
    let cost_analysis : CostAnalysis :=
      { estimated_monthly_cost := monthly, estimated_annual_cost := annual,
        cost_optimizations := cost_opts, resource_count := resource_count }
    let reliability_data ← asDictE ((pyLookup pd "reliability_analysis").getD (.dict []))
    let rel_score ← ratField (pyLookup reliability_data "reliability_score") (1/2)
    let spofs ← findingsField (pyLookup reliability_data "single_points_of_failure")
    let recs ← strListField (pyLookup reliability_data "recommendations")
    let reliability_analysis : ReliabilityAnalysis :=
      { reliability_score := rel_score, single_points_of_failure := spofs,
        recommendations := recs }
    let _overall_risk ←
      (match pyLookup pd "overall_risk_score" with
       | Option.none =>
         Except.ok (calculate_overall_risk security_analysis cost_analysis
           reliability_analysis)
       | Option.some .none =>
         Except.ok (calculate_overall_risk security_analysis cost_analysis
           reliability_analysis)
       | Option.some v =>
         match asNum v with
         | Option.some q =>
           Except.ok (if 0 ≤ q ∧ q ≤ 1 then q
             else calculate_overall_risk security_analysis cost_analysis
               reliability_analysis)
         | Option.none => Except.error BuildErr.typeError)
    Except.error BuildErr.unboundLocalReviewMetadata
  | _ => .error .attributeError

/-- Embeds `BedrockService._create_fallback_result`: the fixed degraded aggregate
returned when every model fails; `now` is `datetime.utcnow().isoformat()`. -/
def create_fallback_result (now : String) : AIReviewResult :=
  { review_id := "",
    security_analysis :=
      { total_findings := 0, high_severity := 0, medium_severity := 0,
        low_severity := 0, findings := [] },
    cost_analysis :=
      { estimated_monthly_cost := 0, estimated_annual_cost := 0,
        cost_optimizations := [], resource_count := 0 },
    reliability_analysis :=
      { reliability_score := 1/2, single_points_of_failure := [],
        recommendations := ["Unable to complete analysis - AI service unavailable"] },
    overall_risk_score := 1/2,
    fix_suggestions := [],
    review_metadata :=
      [("error", .str "AI service unavailable"), ("review_timestamp", .str now)] }

/-- One backend's try-block in `review_terraform`: invoke, parse and
validate, build.  Any exception makes the loop `continue` with the next
model. -/
def tryBackend (net : ModelConfig → Nat → NetOutcome)
    (loads : String → Option PyVal) (terraform_code : String)
    (m : ModelConfig) : Except PipelineErr AIReviewResult :=
  match (invoke_model m (net m)).1 with
  | .error e => .error (.invoke e)
  | .ok text =>
    match parse_and_validate_json loads text with
    | .error e => .error e
    | .ok parsed =>
      match build_review_result parsed terraform_code with
      | .ok r => .ok r
      | .error e => .error (.build e)

/-- The model loop of `review_terraform`: first success wins, otherwise fall
back. -/
def reviewLoop (net : ModelConfig → Nat → NetOutcome)
    (loads : String → Option PyVal) (now terraform_code : String) :
    List ModelConfig → AIReviewResult
  | [] => create_fallback_result now
  | m :: rest =>
    match tryBackend net loads terraform_code m with
    | .ok r => r
    | .error _ => reviewLoop net loads now terraform_code rest

/-- Embeds `BedrockService.review_terraform` with `prompt_type = 'pr_review'`: try
the configured models in priority order; all exceptions are swallowed and
the fixed fallback aggregate is returned when every backend fails.  The
compiled prompt only feeds the network call, which the oracle `net`
abstracts, and the Spacelift context is not consumed before the result
builder's unreachable code, so neither appears as a parameter. -/
def review_terraform (net : ModelConfig → Nat → NetOutcome)
    (loads : String → Option PyVal) (now terraform_code : String) :
    AIReviewResult :=
  reviewLoop net loads now terraform_code MODELS

/-!
## Versioned store adapter (src/backend/lambda/dynamodb_client.py)

A table row is modelled with its key attributes and the `Review` payload
(models.py `Review`).  The `ai_review_result` and free-form context payloads
ride along unchanged through create/update and play no part in keys or
versioning.
-/

/-- The models.py `Review` record as stored. -/
structure ReviewRec where
  review_id : String
  terraform_code : String
  spacelift_run_id : Option String := Option.none
  spacelift_context : List (String × PyVal) := []
  status : String
  ai_review_result : Option AIReviewResult := Option.none
  created_at : String
  updated_at : String
  version : Int := 1
  previous_version_id : Option String := Option.none

/-- One DynamoDB item: primary key `(PK, SK)`, the two GSI projections, and
the review attributes. -/
structure Item where
  pk : String
  sk : String
  gsi1pk : String
  gsi1sk : String
  gsi2pk : String
  gsi2sk : String
  body : ReviewRec

/-- DynamoDB `put_item`: replaces the row with the same primary key `(PK, SK)` when
one exists, otherwise inserts. -/
def putItem : List Item → Item → List Item
  | [], it => [it]
  | row :: rest, it =>
    if row.pk = it.pk ∧ row.sk = it.sk then it :: rest else row :: putItem rest it

/-- Embeds `DynamoDBClient.create_review`: writes the item keyed by
`PK = REVIEW#<id>`, `SK = VERSION#<version>` with the two GSI projections. -/
def create_review (store : List Item) (review : ReviewRec) : List Item :=
  putItem store
    { pk := "REVIEW#" ++ review.review_id,
      sk := "VERSION#" ++ toString review.version,
      gsi1pk :=
        match review.spacelift_run_id with
        | Option.some rid => "SPACELIFT_RUN#" ++ rid
        | Option.none => "REVIEW#" ++ review.review_id,
      gsi1sk := "CREATED#" ++ review.created_at,
      gsi2pk := "STATUS#" ++ review.status,
      gsi2sk := "CREATED#" ++ review.created_at,
      body := review }

/-- Byte-order comparison of two character lists: DynamoDB sorts string sort
keys by their UTF-8 bytes (for the ASCII keys here, code-point order). -/
def charListLt : List Char → List Char → Bool
  | [], [] => false
  | [], _ :: _ => true
  | _ :: _, [] => false
  | a :: xs, b :: ys =>
    if a.toNat < b.toNat then true
    else if b.toNat < a.toNat then false
    else charListLt xs ys

/-- DynamoDB's ordering of string sort keys. -/
def skLt (a b : String) : Bool := charListLt a.data b.data

/-- Embeds `DynamoDBClient.get_review` with no version argument: a key-condition
query on `PK = REVIEW#<id>` with `ScanIndexForward=False, Limit=1`, i.e. the
matching item whose string sort key `VERSION#<n>` is byte-order maximal. -/
def get_review_latest (store : List Item) (review_id : String) : Option Item :=
  let pk := "REVIEW#" ++ review_id
  (store.filter (fun it => it.pk == pk)).foldl
    (fun acc it =>
      match acc with
      | Option.none => Option.some it
      | Option.some best =>
        if skLt best.sk it.sk then Option.some it else Option.some best)
    Option.none

/-- The `ValueError(f"Review {review_id} not found")` of `update_review`
(the spec's *StoreNotFoundError*). -/
inductive StoreErr where
  | notFound (review_id : String)
deriving DecidableEq

/-- Embeds `DynamoDBClient.update_review`: read the current latest row, fail when
there is none, otherwise merge `update_data` over it (modelled as the field
patch it denotes), force `version = current + 1` and
`previous_version_id = "<id>#VERSION#<current>"`, and `create_review` the
result (a `put_item`, which overwrites any row already holding that key). -/
def update_review (store : List Item) (review_id : String)
    (update_data : ReviewRec → ReviewRec) : Except StoreErr (List Item) :=
  match get_review_latest store review_id with
  | Option.none => .error (.notFound review_id)
  | Option.some cur =>
    let current := cur.body
    let new_review :=
      { update_data current with
          version := current.version + 1,
          previous_version_id :=
            Option.some (review_id ++ "#VERSION#" ++ toString current.version) }
    .ok (create_review store new_review)

/-!
## Wire rendering of the typed aggregates

The pydantic `.dict()` rendering used by the store adapter: every field is
present, in declaration order; absent optional fields appear with value
`None`; the `str`-valued enum `severity` renders as its string value.
-/

def pyOfOptInt : Option Int → PyVal
  | Option.none => PyVal.none
  | Option.some n => .int n

def pyOfOptStr : Option String → PyVal
  | Option.none => PyVal.none
  | Option.some s => .str s

def pyOfOptRat : Option Rat → PyVal
  | Option.none => PyVal.none
  | Option.some q => .float q

def Finding.toPy (f : Finding) : PyVal :=
  .dict [("finding_id", .str f.finding_id),
         ("category", .str f.category),
         ("severity", .str f.severity.toStr),
         ("title", .str f.title),
         ("description", .str f.description),
         ("line_number", pyOfOptInt f.line_number),
         ("file_path", pyOfOptStr f.file_path),
         ("recommendation", .str f.recommendation),
         ("estimated_cost_impact", pyOfOptRat f.estimated_cost_impact),
         ("confidence_score", .float f.confidence_score)]

def FixSuggestion.toPy (f : FixSuggestion) : PyVal :=
  .dict [("fix_id", .str f.fix_id),
         ("finding_id", .str f.finding_id),
         ("original_code", .str f.original_code),
         ("suggested_code", .str f.suggested_code),
         ("explanation", .str f.explanation),
         ("effectiveness_score", pyOfOptRat f.effectiveness_score)]

def SecurityAnalysis.toPy (s : SecurityAnalysis) : PyVal :=
  .dict [("total_findings", .int s.total_findings),
         ("high_severity", .int s.high_severity),
         ("medium_severity", .int s.medium_severity),
         ("low_severity", .int s.low_severity),
         ("findings", .list (s.findings.map Finding.toPy))]

def CostAnalysis.toPy (c : CostAnalysis) : PyVal :=
  .dict [("estimated_monthly_cost", .float c.estimated_monthly_cost),
         ("estimated_annual_cost", .float c.estimated_annual_cost),
         ("cost_optimizations", .list (c.cost_optimizations.map Finding.toPy)),
         ("resource_count", .int c.resource_count)]

def ReliabilityAnalysis.toPy (r : ReliabilityAnalysis) : PyVal :=
  .dict [("reliability_score", .float r.reliability_score),
         ("single_points_of_failure",
           .list (r.single_points_of_failure.map Finding.toPy)),
         ("recommendations", .list (r.recommendations.map PyVal.str))]

def AIReviewResult.toPy (r : AIReviewResult) : PyVal :=
  .dict [("review_id", .str r.review_id),
         ("security_analysis", r.security_analysis.toPy),
         ("cost_analysis", r.cost_analysis.toPy),
         ("reliability_analysis", r.reliability_analysis.toPy),
         ("overall_risk_score", .float r.overall_risk_score),
         ("fix_suggestions", .list (r.fix_suggestions.map FixSuggestion.toPy)),
         ("review_metadata", .dict r.review_metadata)]

/-!
## Spec-side predicates for the validation claims
-/

/-- The value under `fields[k1][k2]` when `fields[k1]` is an object. -/
def nestedLookup (fields : List (String × PyVal)) (k1 k2 : String) :
    Option PyVal :=
  match pyLookup fields k1 with
  | Option.some (.dict inner) => pyLookup inner k2
  | _ => Option.none

/-- The optional value is numeric and lies in [0,1]. -/
def numIn01B (v : Option PyVal) : Bool :=
  match v with
  | Option.some x =>
    match asNum x with
    | Option.some q => decide (0 ≤ q ∧ q ≤ 1)
    | Option.none => false
  | Option.none => false

/-- The rejection condition of the claim about `_validate_pr_review_schema`,
written from the claim's words: a validation error is raised iff one of the
six required top-level keys is missing, `security_analysis.findings` is not
a list, `cost_analysis.cost_optimizations` is not a list, or
`reliability_analysis.reliability_score` or `overall_risk_score` is not
numeric in [0,1]. -/
def c5ClaimRejects (data : PyVal) : Bool :=
  match data with
  | .dict fields =>
    !(pyHasKey fields "security_analysis" && pyHasKey fields "cost_analysis" &&
      pyHasKey fields "reliability_analysis" &&
      pyHasKey fields "overall_risk_score" &&
      pyHasKey fields "fix_suggestions" && pyHasKey fields "review_metadata") ||
    !(match nestedLookup fields "security_analysis" "findings" with
      | Option.some (.list _) => true
      | _ => false) ||
    !(match nestedLookup fields "cost_analysis" "cost_optimizations" with
      | Option.some (.list _) => true
      | _ => false) ||
    !(numIn01B (nestedLookup fields "reliability_analysis" "reliability_score")) ||
    !(numIn01B (pyLookup fields "overall_risk_score"))
  | _ => true

/-- What `_validate_pr_review_schema` actually accepts (the amended claim):
the six required top-level keys are present; `security_analysis` is an
object containing `total_findings` and a list-valued `findings`;
`cost_analysis` is an object containing a numeric `estimated_monthly_cost`;
`reliability_analysis` is an object whose `reliability_score` is numeric in
[0,1]; and `overall_risk_score` is numeric in [0,1].
`cost_analysis.cost_optimizations` is never inspected. -/
def validAmended (data : PyVal) : Bool :=
  match data with
  | .dict fields =>
    pyHasKey fields "security_analysis" && pyHasKey fields "cost_analysis" &&
    pyHasKey fields "reliability_analysis" &&
    pyHasKey fields "overall_risk_score" &&
    pyHasKey fields "fix_suggestions" && pyHasKey fields "review_metadata" &&
    (match pyLookup fields "security_analysis" with
     | Option.some (.dict sec) =>
       pyHasKey sec "total_findings" &&
       (match pyLookup sec "findings" with
        | Option.some (.list _) => true
        | _ => false)
     | _ => false) &&
    (match pyLookup fields "cost_analysis" with
     | Option.some (.dict cost) =>
       (match pyLookup cost "estimated_monthly_cost" with
        | Option.some v => isIntFloat v
        | Option.none => false)
     | _ => false) &&
    (match pyLookup fields "reliability_analysis" with
     | Option.some (.dict rel) => numIn01B (pyLookup rel "reliability_score")
     | _ => false) &&
    numIn01B (pyLookup fields "overall_risk_score")
  | _ => false

/-!
## Concrete inputs used by counterexamples and witnesses
-/

/-- A minimal payload that passes `_validate_pr_review_schema`. -/
def demoPayload : PyVal :=
  .dict [("security_analysis",
            .dict [("total_findings", .int 0), ("high_severity", .int 0),
                   ("medium_severity", .int 0), ("low_severity", .int 0),
                   ("findings", .list [])]),
         ("cost_analysis",
            .dict [("estimated_monthly_cost", .float 0),
                   ("estimated_annual_cost", .float 0),
                   ("resource_count", .int 0),
                   ("cost_optimizations", .list [])]),
         ("reliability_analysis",
            .dict [("reliability_score", .float (1/2)),
                   ("single_points_of_failure", .list []),
                   ("recommendations", .list [])]),
         ("overall_risk_score", .float (1/2)),
         ("fix_suggestions", .list []),
         ("review_metadata", .dict [("model_used", .str "claude-3-5-sonnet")])]

/-- A payload whose `cost_optimizations` is a string, not a list: the
validator accepts it, while the claim's condition demands a rejection. -/
def c5Payload : PyVal :=
  .dict [("security_analysis",
            .dict [("total_findings", .int 1), ("findings", .list [])]),
         ("cost_analysis",
            .dict [("estimated_monthly_cost", .int 100),
                   ("cost_optimizations", .str "not-a-list")]),
         ("reliability_analysis", .dict [("reliability_score", .float (1/2))]),
         ("overall_risk_score", .float (1/2)),
         ("fix_suggestions", .list []),
         ("review_metadata", .dict [])]

/-- A backend descriptor whose id is neither a Claude nor a Llama model. -/
def titanConfig : ModelConfig :=
  { id := "amazon.titan-text-express-v1", name := "Titan Text",
    max_tokens := 1024, temperature := 1/10, use_case := "unsupported" }

/-- A supported (Claude) backend descriptor, the first entry of `MODELS`. -/
def claudeConfig : ModelConfig :=
  { id := "anthropic.claude-3-5-sonnet-20241022-v2:0", name := "Claude 3.5 Sonnet",
    max_tokens := 4096, temperature := 1/10, use_case := "primary" }

/-- A network oracle that is throttled on the first two attempts and
succeeds on the third. -/
def netThrottleTwice : Nat → NetOutcome :=
  fun n => if n < 2 then .raise (.clientError "ThrottlingException") else .ok "ok-text"

/-- Scenario A security aggregate: `{high: 2, medium: 1, low: 0}` with 3
total findings. -/
def secA : SecurityAnalysis :=
  { total_findings := 3, high_severity := 2, medium_severity := 1,
    low_severity := 0, findings := [] }

/-- A concrete finding with every optional field present. -/
def demoFinding : Finding :=
  { finding_id := "f1", category := "security", severity := .high,
    title := "Public bucket", description := "S3 bucket is public",
    line_number := Option.some 10, file_path := Option.some "main.tf",
    recommendation := "Block public access",
    estimated_cost_impact := Option.some 100,
    confidence_score := 95/100 }

/-- Scenario B cost aggregate: 5000 monthly cost, 3 optimizations. -/
def costB : CostAnalysis :=
  { estimated_monthly_cost := 5000, estimated_annual_cost := 60000,
    cost_optimizations := [demoFinding, demoFinding, demoFinding],
    resource_count := 5 }

/-- Scenario C reliability aggregate: reported reliability 0.9, one single
point of failure. -/
def relC : ReliabilityAnalysis :=
  { reliability_score := 9/10, single_points_of_failure := [demoFinding],
    recommendations := [] }

/-- A security aggregate whose model-reported `total_findings` is 0 while
the severity counts are positive. -/
def secZeroTotal : SecurityAnalysis :=
  { total_findings := 0, high_severity := 1, medium_severity := 0,
    low_severity := 0, findings := [] }

/-- The same aggregate with the counts zeroed. -/
def secZeroAll : SecurityAnalysis :=
  { total_findings := 0, high_severity := 0, medium_severity := 0,
    low_severity := 0, findings := [] }

/-- A finding whose optional fields are absent (`None`). -/
def findingNoLine : Finding :=
  { finding_id := "f1", category := "security", severity := .high,
    title := "t", description := "d", line_number := Option.none,
    file_path := Option.none, recommendation := "r",
    estimated_cost_impact := Option.none, confidence_score := 95/100 }

/-- An `AIReviewResult` containing a finding with absent optional fields. -/
def c9Result : AIReviewResult :=
  { review_id := "rev1",
    security_analysis :=
      { total_findings := 1, high_severity := 1, medium_severity := 0,
        low_severity := 0, findings := [findingNoLine] },
    cost_analysis :=
      { estimated_monthly_cost := 0, estimated_annual_cost := 0,
        cost_optimizations := [], resource_count := 0 },
    reliability_analysis :=
      { reliability_score := 1/2, single_points_of_failure := [],
        recommendations := [] },
    overall_risk_score := 1/2, fix_suggestions := [],
    review_metadata := [("model_used", .str "claude-3-5-sonnet")] }

/-- An `AIReviewResult` with every optional field present. -/
def c9FullResult : AIReviewResult :=
  { review_id := "rev2",
    security_analysis :=
      { total_findings := 1, high_severity := 1, medium_severity := 0,
        low_severity := 0, findings := [demoFinding] },
    cost_analysis :=
      { estimated_monthly_cost := 5000, estimated_annual_cost := 60000,
        cost_optimizations := [demoFinding], resource_count := 5 },
    reliability_analysis :=
      { reliability_score := 9/10, single_points_of_failure := [demoFinding],
        recommendations := ["Add a second AZ"] },
    overall_risk_score := 7/16,
    fix_suggestions :=
      [{ fix_id := "x1", finding_id := "f1", original_code := "a",
         suggested_code := "b", explanation := "e",
         effectiveness_score := Option.some (9/10) }],
    review_metadata := [("model_used", .str "claude-3-5-sonnet"),
                        ("code_length", .int 42)] }

/-- Projection used to compare round-trip results: the `line_number` value
of the first security finding of a wire record. -/
def findingLineNumber (v : PyVal) : Option PyVal :=
  match v with
  | .dict fs =>
    match pyLookup fs "security_analysis" with
    | Option.some (.dict sec) =>
      match pyLookup sec "findings" with
      | Option.some (.list (f :: _)) =>
        match f with
        | .dict ff => pyLookup ff "line_number"
        | _ => Option.none
      | _ => Option.none
    | _ => Option.none
  | _ => Option.none

/-- The review row used by the store traces. -/
def demoReview : ReviewRec :=
  { review_id := "r1", terraform_code := "resource aws_s3_bucket b",
    spacelift_run_id := Option.none, spacelift_context := [],
    status := "pending", ai_review_result := Option.none,
    created_at := "2026-01-01T00:00:00", updated_at := "2026-01-01T00:00:00",
    version := 1, previous_version_id := Option.none }

/-- Runs `n` successive `update_review` calls with an empty field patch. -/
def iterUpdate : Nat → List Item → List Item
  | 0, s => s
  | n + 1, s =>
    match update_review s "r1" (fun r => r) with
    | .ok s2 => iterUpdate n s2
    | .error _ => s

/-- The store after `create_review` of `demoReview` and `n` updates. -/
def demoStore (n : Nat) : List Item := iterUpdate n (create_review [] demoReview)

/-- The patch `update_data = \x7b'status': 'in_progress'\x7d`. -/
def setStatusInProgress : ReviewRec → ReviewRec :=
  fun r => { r with status := "in_progress" }

/-!
## Helper lemmas
-/

theorem isOk_bind_false {ε α β : Type} {e : Except ε α} {f : α → Except ε β}
    (h : ∀ a, (f a).isOk = false) : (e >>= f).isOk = false := by
  cases e with
  | error err => rfl
  | ok a => exact h a

/-- The result builder can only fail: its code path hits the
`UnboundLocalError` on `review_metadata` before any `return`. -/
theorem build_isOk_false (p : PyVal) (c : String) :
    (build_review_result p c).isOk = false := by
  cases p <;>
    first
      | rfl
      | (simp only [build_review_result]
         repeat (apply isOk_bind_false; intro _)
         rfl)

/-!
## Theorems for the claims
-/

/-- C1: the claim says `_build_review_result` returns an `AIReviewResult`
whose security findings carry the Scoring Engine's recomputed confidence.
In fact the function never returns: `model_used =
review_metadata.get('model_used', …)` reads the local `review_metadata`
before its assignment, so every call — including one on a fully
schema-valid payload — raises `UnboundLocalError`. -/
theorem c1_result_builder_always_raises :
    (∀ parsed code, (build_review_result parsed code).isOk = false) ∧
    build_review_result demoPayload "resource" =
      Except.error BuildErr.unboundLocalReviewMetadata :=
  ⟨build_isOk_false, rfl⟩

/-- C2: the claim says `get_review` with no version returns the row with the
numeric maximum version.  After a create and nine updates the store holds
versions 1–10, but the latest-version query compares the string sort keys
`VERSION#<n>` in byte order, so `VERSION#9` beats `VERSION#10` and the
version-9 row is returned instead of the numeric maximum 10. -/
theorem c2_get_latest_is_lexicographic_not_numeric :
    ((demoStore 9).map (fun it => it.body.version)) =
      [1, 2, 3, 4, 5, 6, 7, 8, 9, 10] ∧
    (get_review_latest (demoStore 9) "r1").map (fun it => it.body.version) =
      Option.some 9 :=
  ⟨rfl, rfl⟩

/-- C3: the claim says a successful update writes a new row with version =
latest + 1 and never overwrites.  On the store holding versions 1–10, the
read of the "current" version returns 9 (byte-order maximum of the string
sort keys), so the update writes version 10 again: the call succeeds, the
store still has ten rows, no version-11 row appears, and the existing
version-10 row is overwritten (its status changes in place). -/
theorem c3_update_overwrites_existing_version_row :
    (update_review (demoStore 9) "r1" setStatusInProgress).map
        (fun s => s.map (fun it => (it.body.version, it.body.status))) =
      Except.ok
        [(1, "pending"), (2, "pending"), (3, "pending"), (4, "pending"),
         (5, "pending"), (6, "pending"), (7, "pending"), (8, "pending"),
         (9, "pending"), (10, "in_progress")] :=
  rfl

/-- C7 counterexample: on the aggregate with `total_findings = 0` and one
high-severity finding, the code's security score is 0 while the claim's
formula gives `clamp01(min(1, 1/10) * 1.5) = 0.15`. -/
theorem c7_counterexample_zero_total_findings :
    calculate_security_score secZeroTotal = 0 ∧
    specSecurityScoreFormula secZeroTotal = 3/20 ∧ (0 : Rat) ≠ 3/20 := by
  refine ⟨rfl, ?_, by norm_num⟩
  norm_num [specSecurityScoreFormula, clamp01, secZeroTotal, min_def, max_def]

/-- C7 amended: for non-negative severity counts, the computed security
component equals the spec formula whenever `total_findings ≠ 0`; when the
model-reported `total_findings` is 0 the code short-circuits to 0 instead. -/
theorem c7_security_score_matches_formula_when_total_nonzero
    (s : SecurityAnalysis) (h1 : 0 ≤ s.high_severity)
    (h2 : 0 ≤ s.medium_severity) (h3 : 0 ≤ s.low_severity) :
    calculate_security_score s =
      if s.total_findings = 0 then 0 else specSecurityScoreFormula s := by
  have hw : (0 : Rat) ≤
      ((s.high_severity : Rat) * 1 + (s.medium_severity : Rat) * (1/2) +
        (s.low_severity : Rat) * (1/5)) / 10 := by
    have q1 : (0 : Rat) ≤ (s.high_severity : Rat) := by exact_mod_cast h1
    have q2 : (0 : Rat) ≤ (s.medium_severity : Rat) := by exact_mod_cast h2
    have q3 : (0 : Rat) ≤ (s.low_severity : Rat) := by exact_mod_cast h3
    positivity
  have hbase : (0 : Rat) ≤ min 1 (((s.high_severity : Rat) * 1 +
      (s.medium_severity : Rat) * (1/2) + (s.low_severity : Rat) * (1/5)) / 10) :=
    le_min (by norm_num) hw
  simp only [calculate_security_score, specSecurityScoreFormula, clamp01]
  by_cases h0 : s.total_findings = 0
  · simp [h0]
  · simp only [h0, if_false]
    rw [max_eq_right hbase]
    by_cases hh : s.high_severity > 0
    · simp only [hh, if_true]
      rw [max_eq_right (by positivity), ← min_assoc, min_self]
    · simp [hh]

/-- C7 witness: the amended statement applied to the Scenario A aggregate. -/
theorem c7_witness :
    (0 : Int) ≤ secA.high_severity ∧ (0 : Int) ≤ secA.medium_severity ∧
    (0 : Int) ≤ secA.low_severity ∧
    calculate_security_score secA =
      (if secA.total_findings = 0 then 0 else specSecurityScoreFormula secA) :=
  ⟨by decide, by decide, by decide,
    c7_security_score_matches_formula_when_total_nonzero secA (by decide)
      (by decide) (by decide)⟩

/-- C8: the spec's Scenarios A–C.  Security `{high: 2, medium: 1, low: 0}`
gives 0.375; cost 5000 with 3 optimizations gives 0.8; reliability 0.9 with
one single point of failure gives 0.2; the weighted combination is exactly
0.4375 = 7/16 and its risk bucket is `"medium"`. -/
theorem c8_scenario_values :
    calculate_security_score secA = 3/8 ∧
    calculate_cost_score costB = 4/5 ∧
    calculate_reliability_score relC = 1/5 ∧
    calculate_overall_risk secA costB relC = 7/16 ∧
    get_risk_level (7/16) = "medium" := by
  have hs : calculate_security_score secA = 3/8 := by
    norm_num [calculate_security_score, secA, min_def]
  have hc : calculate_cost_score costB = 4/5 := by
    norm_num [calculate_cost_score, costB, min_def]
  have hr : calculate_reliability_score relC = 1/5 := by
    norm_num [calculate_reliability_score, relC, min_def]
  refine ⟨hs, hc, hr, ?_, ?_⟩
  · norm_num [calculate_overall_risk, hs, hc, hr, min_def, max_def]
  · norm_num [get_risk_level]

/-- C10: whenever the model-reported `total_findings` is 0, the security
component is exactly 0 regardless of the severity counts, so the overall
risk ignores them. -/
theorem c10_security_gated_by_total_findings (s s' : SecurityAnalysis)
    (c : CostAnalysis) (r : ReliabilityAnalysis) (h : s.total_findings = 0)
    (h' : s'.total_findings = 0) :
    calculate_security_score s = 0 ∧
    calculate_overall_risk s c r = calculate_overall_risk s' c r := by
  have hs : calculate_security_score s = 0 := by
    simp [calculate_security_score, h]
  have hs' : calculate_security_score s' = 0 := by
    simp [calculate_security_score, h']
  exact ⟨hs, by simp [calculate_overall_risk, hs, hs']⟩

/-- C10 witness: positive high-severity count with `total_findings = 0`. -/
theorem c10_witness :
    secZeroTotal.total_findings = 0 ∧ secZeroAll.total_findings = 0 ∧
    (calculate_security_score secZeroTotal = 0 ∧
      calculate_overall_risk secZeroTotal costB relC =
        calculate_overall_risk secZeroAll costB relC) :=
  ⟨rfl, rfl, c10_security_gated_by_total_findings secZeroTotal secZeroAll
    costB relC rfl rfl⟩

/-- One backend's try-block can never succeed: every failure mode is an
error, and even a validated payload dies in the result builder. -/
theorem tryBackend_isOk_false (net : ModelConfig → Nat → NetOutcome)
    (loads : String → Option PyVal) (tf : String) (m : ModelConfig) :
    (tryBackend net loads tf m).isOk = false := by
  unfold tryBackend
  rcases h1 : (invoke_model m (net m)).1 with e | text
  · rfl
  · rcases h2 : parse_and_validate_json loads text with e | parsed
    · simp only [h2]
      rfl
    · simp only [h2]
      rcases h3 : build_review_result parsed tf with e | r
      · simp only [h3]
        rfl
      · have hb := build_isOk_false parsed tf
        rw [h3] at hb
        exact Bool.noConfusion hb

/-- The model loop returns the fallback aggregate whatever the backend
list. -/
theorem reviewLoop_eq_fallback (net : ModelConfig → Nat → NetOutcome)
    (loads : String → Option PyVal) (now tf : String) :
    ∀ ms, reviewLoop net loads now tf ms = create_fallback_result now := by
  intro ms
  induction ms with
  | nil => rfl
  | cons m rest ih =>
    unfold reviewLoop
    rcases h : tryBackend net loads tf m with e | r
    · exact ih
    · have hb := tryBackend_isOk_false net loads tf m
      rw [h] at hb
      exact Bool.noConfusion hb

/-- C4: when every configured backend fails (invocation error, parse error
or schema error), `review_terraform` returns — never raises — the fixed
fallback aggregate: overall risk exactly 0.5, zero findings and empty
finding lists in all three categories, reliability score 0.5, a single
reliability recommendation saying the service was unavailable, and metadata
marked degraded via its `error` key. -/
theorem c4_all_backends_fail_returns_fallback
    (net : ModelConfig → Nat → NetOutcome) (loads : String → Option PyVal)
    (now tf : String)
    (_h : (MODELS.all fun m => !(tryBackend net loads tf m).isOk) = true) :
    review_terraform net loads now tf = create_fallback_result now ∧
    (create_fallback_result now).overall_risk_score = 1/2 ∧
    (create_fallback_result now).security_analysis.total_findings = 0 ∧
    (create_fallback_result now).security_analysis.findings = [] ∧
    (create_fallback_result now).cost_analysis.cost_optimizations = [] ∧
    (create_fallback_result now).reliability_analysis.single_points_of_failure = [] ∧
    (create_fallback_result now).reliability_analysis.reliability_score = 1/2 ∧
    (create_fallback_result now).reliability_analysis.recommendations =
      ["Unable to complete analysis - AI service unavailable"] ∧
    pyHasKey (create_fallback_result now).review_metadata "error" = true :=
  ⟨reviewLoop_eq_fallback net loads now tf MODELS, rfl, rfl, rfl, rfl, rfl,
    rfl, rfl, rfl⟩

/-- C4 witness: every backend is rejected with a permanent `ClientError`
and the pipeline hands back the fallback aggregate. -/
theorem c4_witness :
    (MODELS.all fun m =>
      !(tryBackend (fun _ _ => NetOutcome.raise (.clientError "ValidationException"))
          (fun _ => Option.none) "tf-code" m).isOk) = true ∧
    review_terraform (fun _ _ => NetOutcome.raise (.clientError "ValidationException"))
        (fun _ => Option.none) "2026-01-01T00:00:00" "tf-code" =
      create_fallback_result "2026-01-01T00:00:00" :=
  ⟨rfl,
    (c4_all_backends_fail_returns_fallback
      (fun _ _ => NetOutcome.raise (.clientError "ValidationException"))
      (fun _ => Option.none) "2026-01-01T00:00:00" "tf-code" rfl).1⟩

/-- A supported model id makes the dispatch call the network oracle. -/
theorem dispatch_supported (m : ModelConfig) (net : Nat → NetOutcome)
    (a : Nat) (h : supportedB m = true) : dispatchModel m net a = net a := by
  by_cases hc : strContains (strLower m.id) "claude" = true
  · simp [dispatchModel, hc]
  · have hl : strContains (strLower m.id) "llama" = true := by
      have := h
      simp only [supportedB, Bool.or_eq_true] at this
      rcases this with hcl | hll
      · exact absurd hcl hc
      · exact hll
    simp [dispatchModel, hc, hl]

/-- An unsupported model id makes the dispatch raise `ValueError`. -/
theorem dispatch_unsupported (m : ModelConfig) (net : Nat → NetOutcome)
    (a : Nat) (h : supportedB m = false) :
    dispatchModel m net a = .raise (.valueError ("Unsupported model: " ++ m.id)) := by
  have hcl : strContains (strLower m.id) "claude" = false := by
    simp only [supportedB, Bool.or_eq_false_iff] at h
    exact h.1
  have hll : strContains (strLower m.id) "llama" = false := by
    simp only [supportedB, Bool.or_eq_false_iff] at h
    exact h.2
  simp [dispatchModel, hcl, hll]

/-- C6 counterexample: on a backend whose identifier is unsupported — a
permanent failure per the claim — `_invoke_model` does not abandon the
backend immediately: it retries the `ValueError` through the generic
handler, sleeping 1 s then 2 s before giving up. -/
theorem c6_counterexample_unsupported_backend_is_retried :
    invoke_model titanConfig (fun _ => .ok "response") =
      (.error (.valueError "Unsupported model: amazon.titan-text-express-v1"),
        [1, 2]) ∧
    (invoke_model titanConfig (fun _ => .ok "response")).2 ≠ ([] : List Rat) := by
  have h : invoke_model titanConfig (fun _ => .ok "response") =
      (.error (.valueError "Unsupported model: amazon.titan-text-express-v1"),
        [1, 2]) := by
    have hu : supportedB titanConfig = false := rfl
    have hid : "Unsupported model: " ++ titanConfig.id =
        "Unsupported model: amazon.titan-text-express-v1" := rfl
    simp [invoke_model, invokeGo, dispatch_unsupported _ _ _ hu, retriesOn,
      pow_zero, pow_one, hid]
  exact ⟨h, by rw [h]; simp⟩

/-- C6 amended: `_invoke_model` retries — with sleeps `1 * 2 ** attempt`
seconds, up to 3 attempts — both transient failures (throttling, timeouts
and any other non-`ClientError` exception) and the unsupported-backend
`ValueError`, which falls into the generic handler; only a non-throttling
`ClientError` (malformed request) abandons the backend immediately with no
retry and no sleep. -/
theorem c6_retry_classification (m : ModelConfig) (net : Nat → NetOutcome) :
    (∀ c, supportedB m = true → net 0 = .raise (.clientError c) →
      c ≠ "ThrottlingException" →
      invoke_model m net = (.error (.clientError c), [])) ∧
    (∀ t, supportedB m = true →
      net 0 = .raise (.clientError "ThrottlingException") →
      net 1 = .raise (.clientError "ThrottlingException") → net 2 = .ok t →
      invoke_model m net = (.ok t, [1, 2])) ∧
    (∀ t, supportedB m = true → net 0 = .raise .otherError → net 1 = .ok t →
      invoke_model m net = (.ok t, [1])) ∧
    (supportedB m = false →
      invoke_model m net =
        (.error (.valueError ("Unsupported model: " ++ m.id)), [1, 2])) := by
  refine ⟨?_, ?_, ?_, ?_⟩
  · intro c hs h0 hc
    have hcb : (c == "ThrottlingException") = false := by
      simpa using hc
    simp [invoke_model, invokeGo, dispatch_supported _ _ _ hs, h0, retriesOn, hcb]
  · intro t hs h0 h1 h2
    simp [invoke_model, invokeGo, dispatch_supported _ _ _ hs, h0, h1, h2,
      retriesOn, pow_zero, pow_one]
  · intro t hs h0 h1
    simp [invoke_model, invokeGo, dispatch_supported _ _ _ hs, h0, h1,
      retriesOn, pow_zero]
  · intro hu
    simp [invoke_model, invokeGo, dispatch_unsupported _ _ _ hu, retriesOn,
      pow_zero, pow_one]

/-- C6 witness: a Claude backend throttled twice is retried with sleeps of
1 s and 2 s and succeeds on the third attempt. -/
theorem c6_witness :
    supportedB claudeConfig = true ∧
    netThrottleTwice 0 = .raise (.clientError "ThrottlingException") ∧
    netThrottleTwice 1 = .raise (.clientError "ThrottlingException") ∧
    netThrottleTwice 2 = .ok "ok-text" ∧
    invoke_model claudeConfig netThrottleTwice = (.ok "ok-text", [1, 2]) :=
  ⟨rfl, rfl, rfl, rfl,
    (c6_retry_classification claudeConfig netThrottleTwice).2.1 "ok-text"
      rfl rfl rfl rfl⟩

/-!
Round-trip of `_serialize` / `_deserialize` on `None`-free,
`Decimal`-free values.
-/

mutual

theorem serializable_roundtrip : (v : PyVal) → serializableVal v = true →
    deserializeVal (serializeVal v) = v
  | .bool _, _ => rfl
  | .int _, _ => rfl
  | .float _, _ => rfl
  | .str _, _ => rfl
  | .none, h => Bool.noConfusion h
  | .decimal _, h => Bool.noConfusion h
  | .list xs, h => congrArg PyVal.list (serializableList_roundtrip xs h)
  | .dict fs, h => congrArg PyVal.dict (serializableDict_roundtrip fs h)

theorem serializableList_roundtrip :
    (xs : List PyVal) → serializableList xs = true →
    deserializeList (serializeList xs) = xs
  | [], _ => rfl
  | v :: vs, h =>
    have hp : serializableVal v = true ∧ serializableList vs = true :=
      (Bool.and_eq_true (serializableVal v) (serializableList vs)) ▸ h
    congrArg₂ List.cons (serializable_roundtrip v hp.1)
      (serializableList_roundtrip vs hp.2)

theorem serializableDict_roundtrip :
    (fs : List (String × PyVal)) → serializableDict fs = true →
    deserializeDict (serializeDict fs) = fs
  | [], _ => rfl
  | (k, v) :: rest, h =>
    have hp : serializableVal v = true ∧ serializableDict rest = true :=
      (Bool.and_eq_true (serializableVal v) (serializableDict rest)) ▸ h
    congrArg₂ List.cons (congrArg (Prod.mk k) (serializable_roundtrip v hp.1))
      (serializableDict_roundtrip rest hp.2)

end

/-- C9 counterexample: on a result whose finding has no line number, the
wire record carries `None`, `_serialize` turns it into the string `"None"`,
and the round-trip is not the identity: the claim's field-for-field
equality fails for absent optional fields. -/
theorem c9_counterexample_absent_field_breaks_roundtrip :
    findingLineNumber (deserializeVal (serializeVal (AIReviewResult.toPy c9Result))) =
      Option.some (PyVal.str "None") ∧
    findingLineNumber (AIReviewResult.toPy c9Result) = Option.some PyVal.none ∧
    deserializeVal (serializeVal (AIReviewResult.toPy c9Result)) ≠
      AIReviewResult.toPy c9Result := by
  refine ⟨rfl, rfl, fun h => ?_⟩
  have h2 : Option.some (PyVal.str "None") = Option.some PyVal.none :=
    congrArg findingLineNumber h
  exact PyVal.noConfusion (Option.some.inj h2)

/-- C9 amended: serializing an `AIReviewResult` to its wire record and
parsing it back is the identity on that record — hence field-for-field
equality of the reconstructed aggregate — provided every optional field is
present and the metadata holds no `None` (and no `Decimal`) values; an
absent (`None`) optional field is serialized to the string `"None"` and
does not survive the round trip. -/
theorem c9_roundtrip_on_fully_present_results (r : AIReviewResult)
    (h : serializableVal (AIReviewResult.toPy r) = true) :
    deserializeVal (serializeVal (AIReviewResult.toPy r)) =
      AIReviewResult.toPy r :=
  serializable_roundtrip _ h

/-- C9 witness: a result with every optional field present round-trips. -/
theorem c9_witness :
    serializableVal (AIReviewResult.toPy c9FullResult) = true ∧
    deserializeVal (serializeVal (AIReviewResult.toPy c9FullResult)) =
      AIReviewResult.toPy c9FullResult :=
  ⟨rfl, c9_roundtrip_on_fully_present_results c9FullResult rfl⟩

/-!
Characterization of the `pr_review` schema validator.
-/

theorem seq_ok_iff (a b : Except SchemaErr Unit) :
    (a >>= fun _ => b) = .ok () ↔ a = .ok () ∧ b = .ok () := by
  cases a with
  | error e => simp [Bind.bind, Except.bind]
  | ok u => cases u; simp [Bind.bind, Except.bind]

theorem requireKeys_ok_iff (fields : List (String × PyVal)) (ks : List String) :
    requireKeys fields ks = .ok () ↔ ks.all (pyHasKey fields) = true := by
  induction ks with
  | nil => simp [requireKeys]
  | cons k rest ih =>
    by_cases h : pyHasKey fields k = true
    · simp [requireKeys, h, ih]
    · rw [Bool.not_eq_true] at h
      simp [requireKeys, h]

theorem checkSecurityBlock_ok_iff (fields : List (String × PyVal)) :
    checkSecurityBlock fields = .ok () ↔
    (match pyLookup fields "security_analysis" with
     | Option.some (.dict sec) =>
       pyHasKey sec "total_findings" &&
       (match pyLookup sec "findings" with
        | Option.some (.list _) => true
        | _ => false)
     | _ => false) = true := by
  rcases h : pyLookup fields "security_analysis" with _ | v
  · simp [checkSecurityBlock, h]
  · cases v with
    | dict sec =>
      by_cases h1 : pyHasKey sec "total_findings" = true
      · rcases h2 : pyLookup sec "findings" with _ | w
        · simp [checkSecurityBlock, h, h1, h2, pyHasKey]
        · cases w <;>
            simp [checkSecurityBlock, h, h1, h2, pyHasKey, isListVal,
              Option.isSome_iff_ne_none]
      · rw [Bool.not_eq_true] at h1
        simp [checkSecurityBlock, h, h1]
    | none => simp [checkSecurityBlock, h]
    | bool b => simp [checkSecurityBlock, h]
    | int n => simp [checkSecurityBlock, h]
    | float q => simp [checkSecurityBlock, h]
    | str s => simp [checkSecurityBlock, h]
    | decimal q => simp [checkSecurityBlock, h]
    | list xs => simp [checkSecurityBlock, h]

theorem checkCostBlock_ok_iff (fields : List (String × PyVal)) :
    checkCostBlock fields = .ok () ↔
    (match pyLookup fields "cost_analysis" with
     | Option.some (.dict cost) =>
       (match pyLookup cost "estimated_monthly_cost" with
        | Option.some v => isIntFloat v
        | Option.none => false)
     | _ => false) = true := by
  rcases h : pyLookup fields "cost_analysis" with _ | v
  · simp [checkCostBlock, h]
  · cases v with
    | dict cost =>
      rcases h2 : pyLookup cost "estimated_monthly_cost" with _ | w
      · simp [checkCostBlock, h, h2, pyHasKey]
      · simp [checkCostBlock, h, h2, pyHasKey]
    | none => simp [checkCostBlock, h]
    | bool b => simp [checkCostBlock, h]
    | int n => simp [checkCostBlock, h]
    | float q => simp [checkCostBlock, h]
    | str s => simp [checkCostBlock, h]
    | decimal q => simp [checkCostBlock, h]
    | list xs => simp [checkCostBlock, h]

theorem checkReliabilityBlock_ok_iff (fields : List (String × PyVal)) :
    checkReliabilityBlock fields = .ok () ↔
    (match pyLookup fields "reliability_analysis" with
     | Option.some (.dict rel) => numIn01B (pyLookup rel "reliability_score")
     | _ => false) = true := by
  rcases h : pyLookup fields "reliability_analysis" with _ | v
  · simp [checkReliabilityBlock, h]
  · cases v with
    | dict rel =>
      rcases h2 : pyLookup rel "reliability_score" with _ | w
      · simp [checkReliabilityBlock, h, h2, pyHasKey, numIn01B]
      · rcases h3 : asNum w with _ | q
        · simp [checkReliabilityBlock, h, h2, h3, pyHasKey, numIn01B]
        · by_cases hq : 0 ≤ q ∧ q ≤ 1
          · simp [checkReliabilityBlock, h, h2, h3, pyHasKey, numIn01B, hq]
          · simp [checkReliabilityBlock, h, h2, h3, pyHasKey, numIn01B, hq]
    | none => simp [checkReliabilityBlock, h]
    | bool b => simp [checkReliabilityBlock, h]
    | int n => simp [checkReliabilityBlock, h]
    | float q => simp [checkReliabilityBlock, h]
    | str s => simp [checkReliabilityBlock, h]
    | decimal q => simp [checkReliabilityBlock, h]
    | list xs => simp [checkReliabilityBlock, h]

theorem checkOverallRisk_ok_iff (fields : List (String × PyVal)) :
    checkOverallRisk fields = .ok () ↔
    numIn01B (pyLookup fields "overall_risk_score") = true := by
  rcases h : pyLookup fields "overall_risk_score" with _ | w
  · simp [checkOverallRisk, h, numIn01B, asNum]
  · rcases h3 : asNum w with _ | q
    · simp [checkOverallRisk, h, h3, numIn01B]
    · by_cases hq : 0 ≤ q ∧ q ≤ 1
      · simp [checkOverallRisk, h, h3, numIn01B, hq]
      · simp [checkOverallRisk, h, h3, numIn01B, hq]

/-- The validator accepts exactly the payloads described by
`validAmended`. -/
theorem validate_ok_iff_validAmended (data : PyVal) :
    validate_pr_review_schema data = Except.ok () ↔ validAmended data = true := by
  cases data with
  | dict fields =>
    simp only [validate_pr_review_schema]
    rw [seq_ok_iff, seq_ok_iff, seq_ok_iff, seq_ok_iff, requireKeys_ok_iff,
      checkSecurityBlock_ok_iff, checkCostBlock_ok_iff,
      checkReliabilityBlock_ok_iff, checkOverallRisk_ok_iff]
    simp [validAmended, List.all, Bool.and_eq_true, and_assoc]
  | none => simp [validate_pr_review_schema, validAmended]
  | bool b => simp [validate_pr_review_schema, validAmended]
  | int n => simp [validate_pr_review_schema, validAmended]
  | float q => simp [validate_pr_review_schema, validAmended]
  | str s => simp [validate_pr_review_schema, validAmended]
  | decimal q => simp [validate_pr_review_schema, validAmended]
  | list xs => simp [validate_pr_review_schema, validAmended]

/-- C5 counterexample: a payload whose `cost_optimizations` is a string
passes `_validate_pr_review_schema` even though the claim's condition
requires it to be rejected. -/
theorem c5_counterexample_cost_optimizations_unchecked :
    validate_pr_review_schema c5Payload = Except.ok () ∧
    c5ClaimRejects c5Payload = true := by
  constructor
  · refine (validate_ok_iff_validAmended c5Payload).mpr ?_
    simp [validAmended, c5Payload, pyLookup, pyHasKey, numIn01B, asNum,
      isIntFloat]
    norm_num
  · simp [c5ClaimRejects, c5Payload, nestedLookup, pyLookup, pyHasKey,
      numIn01B, asNum]

/-- C5 amended: `_validate_pr_review_schema` raises iff one of the six
required top-level keys is missing, an analysis value is not an object,
`security_analysis.total_findings` is missing,
`security_analysis.findings` is missing or not a list,
`cost_analysis.estimated_monthly_cost` is missing or not numeric, or
`reliability_analysis.reliability_score` or `overall_risk_score` is not
numeric in [0,1]; `cost_analysis.cost_optimizations` is never checked. -/
theorem c5_validator_characterization (data : PyVal) :
    validate_pr_review_schema data = Except.ok () ↔ validAmended data = true :=
  validate_ok_iff_validAmended data

end TfReviewer
